import Mathlib

/-!
Shallow embedding of the ZeroTC45 Arduino library (src/ZeroTC45.cpp,
src/ZeroTC45.h): a driver that configures the SAMD21 TC4/TC5
timer/counter peripherals to raise periodic or one-shot overflow
interrupts.

Hardware registers are modelled as `Nat` values with explicit masks at
the register width where the C code relies on fixed-width arithmetic
(`period - 1` on a `uint16_t`).  Each C function becomes a Lean state
transformer on an explicit `DeviceState`.  `configureGclk` additionally
returns the ordered trace of generic-clock register accesses (writes and
sync-busy spin waits), and the interrupt handlers return the ordered
trace of observable events (callback invocation, interrupt
acknowledgement), so that ordering claims can be stated.

Register-field constants are transcribed from the SAMD21 CMSIS headers
that the source includes (tc.h, gclk.h, sysctrl.h, pm.h).
-/

/-- SAMD21 TC peripheral register-field constants (CMSIS tc.h). -/
def TC_CTRLA_ENABLE : Nat := 1 <<< 1

/-- CTRLA.MODE field value for 16-bit counter mode (value 0 at bit position 2). -/
def TC_CTRLA_MODE_COUNT16 : Nat := 0 <<< 2

/-- CTRLA.WAVEGEN field writer: two bits at position 5. -/
def TC_CTRLA_WAVEGEN (v : Nat) : Nat := (v <<< 5) &&& (0x3 <<< 5)

/-- CTRLA.PRESCALER field value DIV1024 (0x7 at bit position 8). -/
def TC_CTRLA_PRESCALER_DIV1024 : Nat := 0x7 <<< 8

/-- CTRLA.RUNSTDBY bit. -/
def TC_CTRLA_RUNSTDBY : Nat := 1 <<< 11

/-- CTRLBSET.ONESHOT bit (bit 2). -/
def TC_CTRLBSET_ONESHOT : Nat := 1 <<< 2

/-- CTRLBSET.CMD field value STOP (0x2 at bit position 6). -/
def TC_CTRLBSET_CMD_STOP : Nat := 0x2 <<< 6

/-- INTFLAG.OVF bit (bit 0). -/
def TC_INTFLAG_OVF : Nat := 1 <<< 0

/-- SYSCTRL XOSC32K register bits (CMSIS sysctrl.h). -/
def SYSCTRL_XOSC32K_ENABLE : Nat := 1 <<< 1

def SYSCTRL_XOSC32K_XTALEN : Nat := 1 <<< 2

def SYSCTRL_XOSC32K_EN32K : Nat := 1 <<< 3

def SYSCTRL_XOSC32K_RUNSTDBY : Nat := 1 <<< 6

def SYSCTRL_XOSC32K_ONDEMAND : Nat := 1 <<< 7

/-- XOSC32K.STARTUP field writer: three bits at position 8. -/
def SYSCTRL_XOSC32K_STARTUP (v : Nat) : Nat := (v <<< 8) &&& (0x7 <<< 8)

/-- GCLK GENDIV register field writers (CMSIS gclk.h). -/
def GCLK_GENDIV_ID (v : Nat) : Nat := v &&& 0xF

def GCLK_GENDIV_DIV (v : Nat) : Nat := (v <<< 8) &&& (0xFFFF <<< 8)

/-- GCLK GENCTRL register fields. -/
def GCLK_GENCTRL_ID (v : Nat) : Nat := v &&& 0xF

def GCLK_GENCTRL_SRC_OSCULP32K : Nat := 0x3 <<< 8

def GCLK_GENCTRL_SRC_XOSC32K : Nat := 0x5 <<< 8

def GCLK_GENCTRL_SRC_Msk : Nat := 0x1F <<< 8

def GCLK_GENCTRL_GENEN : Nat := 1 <<< 16

def GCLK_GENCTRL_DIVSEL : Nat := 1 <<< 20

/-- GCLK CLKCTRL register fields. -/
def GCLK_CLKCTRL_ID (v : Nat) : Nat := v &&& 0x3F

def GCLK_CLKCTRL_GEN (v : Nat) : Nat := (v &&& 0xF) <<< 8

def GCLK_CLKCTRL_CLKEN : Nat := 1 <<< 14

/-- Generic-clock multiplexer id for the shared TC4/TC5 clock channel. -/
def GCM_TC4_TC5 : Nat := 0x1C

/-- Power-manager APBC mask bits for TC4 and TC5 (CMSIS pm.h). -/
def PM_APBCMASK_TC4 : Nat := 1 <<< 12

def PM_APBCMASK_TC5 : Nat := 1 <<< 13

/-- The two resolutions of ZeroTC45.h (enum Resolution). -/
inductive Resolution where
  | MILLISECONDS
  | SECONDS
deriving DecidableEq, Repr

/-- A `Tc*` handle.  `tc4` and `tc5` are the two recognized peripheral
identities; `other a` stands for any other pointer value (address `a`),
which the C code happily dereferences for register writes but never
matches in its identity comparisons. -/
inductive TcId where
  | tc4
  | tc5
  | other (addr : Nat)
deriving DecidableEq, Repr

/-- The register block of one TC peripheral, as far as the driver touches
it.  `ovfIntEnabled` models the INTENSET/INTENCLR pair (writing 1 to
INTENSET.OVF enables, writing 1 to INTENCLR.OVF disables the overflow
interrupt).  `ctrlb` is the CTRLB register reached through the CTRLBSET
write-to-set view. -/
structure TcRegs where
  ctrla : Nat
  ctrlb : Nat
  cc0 : Nat
  ovfIntEnabled : Bool
  intflag : Nat
deriving DecidableEq, Repr

/-- NVIC state of one interrupt line. -/
structure NvicLine where
  pending : Bool
  enabled : Bool
  priority : Nat
deriving DecidableEq, Repr

/-- The whole state the driver touches: both recognized TC register
blocks, register blocks behind any other handle (indexed by address),
the two NVIC lines, the two global callback slots (a callback pointer is
modelled by a `Nat` identity, NULL by `none`), the single ZeroTC45
instance's `resolution` member, and the clock-tree registers. -/
structure DeviceState where
  tc4 : TcRegs
  tc5 : TcRegs
  otherTc : Nat → TcRegs
  nvicTc4 : NvicLine
  nvicTc5 : NvicLine
  tc4Callback : Option Nat
  tc5Callback : Option Nat
  resolution : Resolution
  xosc32k : Nat
  gendiv : Nat
  genctrl : Nat
  clkctrl : Nat
  apbcmask : Nat

/-- Read the register block behind a handle (`tc->COUNT16...`). -/
def DeviceState.getTc (s : DeviceState) : TcId → TcRegs
  | .tc4 => s.tc4
  | .tc5 => s.tc5
  | .other a => s.otherTc a

/-- Write back the register block behind a handle. -/
def DeviceState.setTc (s : DeviceState) : TcId → TcRegs → DeviceState
  | .tc4, t => { s with tc4 := t }
  | .tc5, t => { s with tc5 := t }
  | .other a, t => { s with otherTc := Function.update s.otherTc a t }

/-- Write-one-to-clear semantics of the 8-bit INTFLAG register: every bit
written as 1 is cleared, bits written as 0 are left alone. -/
def intflagWrite (old v : Nat) : Nat := old &&& (0xFF ^^^ (v &&& 0xFF))

namespace ZeroTC45

/-- ZeroTC45::configureTC (ZeroTC45.cpp lines 165-213): disable the TC,
program CTRLA (16-bit mode, MFRQ waveform, run-standby, and the
divide-by-1024 prescaler when the resolution is SECONDS), set the
one-shot bit via CTRLBSET when requested, write CC[0] = period - 1 in
16-bit unsigned arithmetic, enable the overflow interrupt, re-enable the
TC, and finally — only for the recognized identities TC4/TC5 — clear the
pending NVIC line, enable it and set its priority to 0. -/
def configureTC (s : DeviceState) (tc : TcId) (period : Nat) (oneShot : Bool) :
    DeviceState :=
  let t := s.getTc tc
  -- tc->COUNT16.CTRLA.reg &= ~TC_CTRLA_ENABLE
  let t := { t with ctrla := t.ctrla &&& (0xFFFF ^^^ TC_CTRLA_ENABLE) }
  let ctrla := TC_CTRLA_MODE_COUNT16 ||| TC_CTRLA_WAVEGEN 1 ||| TC_CTRLA_RUNSTDBY
  let ctrla :=
    if s.resolution = Resolution.SECONDS then
      ctrla ||| TC_CTRLA_PRESCALER_DIV1024
    else ctrla
  -- tc->COUNT16.CTRLA.reg = ctrla
  let t := { t with ctrla := ctrla }
  -- if (oneShot) tc->COUNT16.CTRLBSET.bit.ONESHOT = 1
  let t :=
    if oneShot then { t with ctrlb := t.ctrlb ||| TC_CTRLBSET_ONESHOT } else t
  -- tc->COUNT16.CC[0].reg = period - 1   (uint16_t arithmetic)
  let t := { t with cc0 := (period + 0xFFFF) % 0x10000 }
  -- tc->COUNT16.INTENSET.bit.OVF = 1
  let t := { t with ovfIntEnabled := true }
  -- tc->COUNT16.CTRLA.reg |= TC_CTRLA_ENABLE
  let t := { t with ctrla := t.ctrla ||| TC_CTRLA_ENABLE }
  let s := s.setTc tc t
  match tc with
  | .tc4 =>
      { s with nvicTc4 := { pending := false, enabled := true, priority := 0 } }
  | .tc5 =>
      { s with nvicTc5 := { pending := false, enabled := true, priority := 0 } }
  | .other _ => s

end ZeroTC45

/-- stopTC (ZeroTC45.cpp lines 139-155): issue the STOP command through
CTRLBSET, disable the overflow interrupt through INTENCLR, then — only
for the recognized identities — clear the pending NVIC line and disable
it. -/
def stopTC (s : DeviceState) (tc : TcId) : DeviceState :=
  let t := s.getTc tc
  -- tc->COUNT16.CTRLBSET.reg |= TC_CTRLBSET_CMD_STOP
  let t := { t with ctrlb := t.ctrlb ||| TC_CTRLBSET_CMD_STOP }
  -- tc->COUNT16.INTENCLR.bit.OVF = 1
  let t := { t with ovfIntEnabled := false }
  let s := s.setTc tc t
  match tc with
  | .tc4 =>
      { s with nvicTc4 := { s.nvicTc4 with pending := false, enabled := false } }
  | .tc5 =>
      { s with nvicTc5 := { s.nvicTc5 with pending := false, enabled := false } }
  | .other _ => s

/-- Observable generic-clock-configuration events of configureGclk, in
program order: register writes and sync-busy spin waits. -/
inductive GclkEvent where
  | writeXosc32k
  | writeGendiv
  | writeGenctrl
  | writeClkctrl
  | syncWait
deriving DecidableEq, BEq, Repr

namespace ZeroTC45

/-- ZeroTC45::configureGclk (ZeroTC45.cpp lines 225-268): when the
resolution is SECONDS, program the XOSC32K crystal oscillator; program
GENDIV (divider 4, i.e. 2^(4+1) = 32 with DIVSEL); spin on GCLK sync
busy; program GENCTRL with the generator enabled, DIVSEL set and the
source chosen by resolution (XOSC32K for seconds, OSCULP32K for
milliseconds); spin; route the generator to the TC4/TC5 clock channel
through CLKCTRL; spin.  Returns the new state together with the ordered
event trace. -/
def configureGclk (s : DeviceState) (gclkId : Nat) :
    DeviceState × List GclkEvent :=
  let (s, ev1) :=
    if s.resolution = Resolution.SECONDS then
      ({ s with xosc32k :=
          SYSCTRL_XOSC32K_ONDEMAND ||| SYSCTRL_XOSC32K_RUNSTDBY |||
          SYSCTRL_XOSC32K_EN32K ||| SYSCTRL_XOSC32K_XTALEN |||
          SYSCTRL_XOSC32K_STARTUP 6 ||| SYSCTRL_XOSC32K_ENABLE },
        [GclkEvent.writeXosc32k])
    else (s, [])
  -- GCLK->GENDIV.reg = GCLK_GENDIV_ID(gclkId) | GCLK_GENDIV_DIV(4)
  let s := { s with gendiv := GCLK_GENDIV_ID gclkId ||| GCLK_GENDIV_DIV 4 }
  -- while (GCLK->STATUS.bit.SYNCBUSY);
  let genctrl := GCLK_GENCTRL_GENEN ||| GCLK_GENCTRL_ID gclkId ||| GCLK_GENCTRL_DIVSEL
  let genctrl :=
    genctrl |||
      (if s.resolution = Resolution.SECONDS then GCLK_GENCTRL_SRC_XOSC32K
       else GCLK_GENCTRL_SRC_OSCULP32K)
  -- GCLK->GENCTRL.reg = genctrl; while (GCLK->STATUS.bit.SYNCBUSY);
  let s := { s with genctrl := genctrl }
  -- GCLK->CLKCTRL.reg = ...; while (GCLK->STATUS.bit.SYNCBUSY);
  let s := { s with clkctrl :=
      GCLK_CLKCTRL_CLKEN ||| GCLK_CLKCTRL_GEN gclkId ||| GCLK_CLKCTRL_ID GCM_TC4_TC5 }
  (s, ev1 ++
    [GclkEvent.writeGendiv, GclkEvent.syncWait, GclkEvent.writeGenctrl,
     GclkEvent.syncWait, GclkEvent.writeClkctrl, GclkEvent.syncWait])

/-- ZeroTC45::begin(uint8_t gclkId) (ZeroTC45.cpp lines 37-44): set the
resolution member to SECONDS, configure the clock tree, and enable TC4
and TC5 in the power manager. -/
def begin (s : DeviceState) (gclkId : Nat) : DeviceState :=
  let s := { s with resolution := Resolution.SECONDS }
  let s := (configureGclk s gclkId).1
  let s := { s with apbcmask := s.apbcmask ||| PM_APBCMASK_TC4 }
  { s with apbcmask := s.apbcmask ||| PM_APBCMASK_TC5 }

/-- ZeroTC45::begin(Resolution, uint8_t) (ZeroTC45.cpp lines 54-61). -/
def beginWithResolution (s : DeviceState) (res : Resolution) (gclkId : Nat) :
    DeviceState :=
  let s := { s with resolution := res }
  let s := (configureGclk s gclkId).1
  let s := { s with apbcmask := s.apbcmask ||| PM_APBCMASK_TC4 }
  { s with apbcmask := s.apbcmask ||| PM_APBCMASK_TC5 }

/-- ZeroTC45::setTc4Callback. -/
def setTc4Callback (s : DeviceState) (callback : Option Nat) : DeviceState :=
  { s with tc4Callback := callback }

/-- ZeroTC45::setTc5Callback. -/
def setTc5Callback (s : DeviceState) (callback : Option Nat) : DeviceState :=
  { s with tc5Callback := callback }

/-- ZeroTC45::startTc4. -/
def startTc4 (s : DeviceState) (period : Nat) (oneShot : Bool) : DeviceState :=
  configureTC s TcId.tc4 period oneShot

/-- ZeroTC45::startTc5. -/
def startTc5 (s : DeviceState) (period : Nat) (oneShot : Bool) : DeviceState :=
  configureTC s TcId.tc5 period oneShot

/-- ZeroTC45::stopTc4. -/
def stopTc4 (s : DeviceState) : DeviceState := stopTC s TcId.tc4

/-- ZeroTC45::stopTc5. -/
def stopTc5 (s : DeviceState) : DeviceState := stopTC s TcId.tc5

end ZeroTC45

/-- Observable events of one interrupt-handler run, in program order. -/
inductive HandlerEvent where
  | invoke (cb : Nat)
  | ackOvf
deriving DecidableEq, Repr

/-- TC4_Handler (ZeroTC45.cpp lines 270-278): if the OVF flag is set,
invoke the registered callback when it is non-NULL, then acknowledge the
interrupt by writing the flag register back ORed with OVF
(write-one-to-clear). -/
def TC4_Handler (s : DeviceState) : DeviceState × List HandlerEvent :=
  if (s.tc4.intflag &&& TC_INTFLAG_OVF) ≠ 0 then
    let ev : List HandlerEvent :=
      match s.tc4Callback with
      | some cb => [HandlerEvent.invoke cb]
      | none => []
    ({ s with tc4 := { s.tc4 with
        intflag := intflagWrite s.tc4.intflag (s.tc4.intflag ||| TC_INTFLAG_OVF) } },
      ev ++ [HandlerEvent.ackOvf])
  else (s, [])

/-- TC5_Handler (ZeroTC45.cpp lines 280-288). -/
def TC5_Handler (s : DeviceState) : DeviceState × List HandlerEvent :=
  if (s.tc5.intflag &&& TC_INTFLAG_OVF) ≠ 0 then
    let ev : List HandlerEvent :=
      match s.tc5Callback with
      | some cb => [HandlerEvent.invoke cb]
      | none => []
    ({ s with tc5 := { s.tc5 with
        intflag := intflagWrite s.tc5.intflag (s.tc5.intflag ||| TC_INTFLAG_OVF) } },
      ev ++ [HandlerEvent.ackOvf])
  else (s, [])

/-- A default TC register block, used as a concrete base point. -/
def tcRegs0 : TcRegs :=
  { ctrla := 0, ctrlb := 0, cc0 := 0, ovfIntEnabled := false, intflag := 0 }

/-- A concrete device state used to instantiate the general theorems. -/
def device0 : DeviceState :=
  { tc4 := tcRegs0
    tc5 := tcRegs0
    otherTc := fun _ => tcRegs0
    nvicTc4 := { pending := true, enabled := false, priority := 3 }
    nvicTc5 := { pending := false, enabled := true, priority := 2 }
    tc4Callback := none
    tc5Callback := none
    resolution := Resolution.MILLISECONDS
    xosc32k := 0
    gendiv := 0
    genctrl := 0
    clkctrl := 0
    apbcmask := 0 }

/-- Reading back the block just written through a handle. -/
theorem DeviceState.getTc_setTc (s : DeviceState) (tc : TcId) (t : TcRegs) :
    (s.setTc tc t).getTc tc = t := by
  cases tc <;> simp [DeviceState.getTc, DeviceState.setTc, Function.update_same]

/-- The register block behind the handle after configureTC, in closed
form: CTRLA fully rewritten (with ENABLE restored and the prescaler
conditional on the resolution), CTRLB with the one-shot bit ORed in only
when requested, CC0 = period - 1 in 16-bit arithmetic, and the overflow
interrupt enabled. -/
theorem getTc_configureTC (s : DeviceState) (tc : TcId) (period : Nat) (oneShot : Bool) :
    (ZeroTC45.configureTC s tc period oneShot).getTc tc =
      { ctrla :=
          (if s.resolution = Resolution.SECONDS then
            TC_CTRLA_MODE_COUNT16 ||| TC_CTRLA_WAVEGEN 1 ||| TC_CTRLA_RUNSTDBY |||
              TC_CTRLA_PRESCALER_DIV1024
          else
            TC_CTRLA_MODE_COUNT16 ||| TC_CTRLA_WAVEGEN 1 ||| TC_CTRLA_RUNSTDBY) |||
          TC_CTRLA_ENABLE
        ctrlb :=
          if oneShot then (s.getTc tc).ctrlb ||| TC_CTRLBSET_ONESHOT
          else (s.getTc tc).ctrlb
        cc0 := (period + 0xFFFF) % 0x10000
        ovfIntEnabled := true
        intflag := (s.getTc tc).intflag } := by
  cases tc <;> cases oneShot <;>
    simp [ZeroTC45.configureTC, DeviceState.getTc, DeviceState.setTc,
      Function.update_same]

/-- C1: for every period value and every timer handle, configureTC writes
compare channel 0 of that timer to period minus 1 in the 16-bit unsigned
arithmetic of the `uint16_t` period parameter (so the programmed top
value encodes period - 1 counts); for period >= 1 this is literally
period - 1. -/
theorem configureTC_writes_cc0_period_minus_one
    (s : DeviceState) (tc : TcId) (period : Nat) (oneShot : Bool)
    (hlt : period < 0x10000) :
    ((ZeroTC45.configureTC s tc period oneShot).getTc tc).cc0 =
        (period + 0x10000 - 1) % 0x10000
    ∧ (1 ≤ period →
        ((ZeroTC45.configureTC s tc period oneShot).getTc tc).cc0 = period - 1) := by
  rw [getTc_configureTC]
  refine ⟨by norm_num, fun h1 => ?_⟩
  simp only []
  omega

/-- Witness for C1 at period = 5 on TC4. -/
theorem configureTC_writes_cc0_period_minus_one_witness :
    (5 : Nat) < 0x10000
    ∧ ((ZeroTC45.configureTC device0 TcId.tc4 5 false).getTc TcId.tc4).cc0 =
        (5 + 0x10000 - 1) % 0x10000
    ∧ ((ZeroTC45.configureTC device0 TcId.tc4 5 false).getTc TcId.tc4).cc0 = 5 - 1 :=
  ⟨by decide,
    (configureTC_writes_cc0_period_minus_one device0 TcId.tc4 5 false (by decide)).1,
    (configureTC_writes_cc0_period_minus_one device0 TcId.tc4 5 false
      (by decide)).2 (by decide)⟩

/-- C3: the CTRLA value configureTC programs has the divide-by-1024
prescaler field set if and only if the active resolution is SECONDS;
with MILLISECONDS the prescaler field is 0 (no additional divide). -/
theorem configureTC_prescaler_iff_seconds
    (s : DeviceState) (tc : TcId) (period : Nat) (oneShot : Bool) :
    ((((ZeroTC45.configureTC s tc period oneShot).getTc tc).ctrla &&&
        TC_CTRLA_PRESCALER_DIV1024) = TC_CTRLA_PRESCALER_DIV1024
      ↔ s.resolution = Resolution.SECONDS)
    ∧ (s.resolution = Resolution.MILLISECONDS →
        (((ZeroTC45.configureTC s tc period oneShot).getTc tc).ctrla &&&
          TC_CTRLA_PRESCALER_DIV1024) = 0) := by
  rw [getTc_configureTC]
  rcases h : s.resolution <;> simp [h] <;> decide

/-- Witness for C3 (the second conjunct carries a hypothesis):
instantiated on a MILLISECONDS state and on a SECONDS state. -/
theorem configureTC_prescaler_iff_seconds_witness :
    ((((ZeroTC45.configureTC device0 TcId.tc4 3 false).getTc TcId.tc4).ctrla &&&
        TC_CTRLA_PRESCALER_DIV1024) = TC_CTRLA_PRESCALER_DIV1024
      ↔ device0.resolution = Resolution.SECONDS)
    ∧ (((ZeroTC45.configureTC device0 TcId.tc4 3 false).getTc TcId.tc4).ctrla &&&
        TC_CTRLA_PRESCALER_DIV1024) = 0 :=
  ⟨(configureTC_prescaler_iff_seconds device0 TcId.tc4 3 false).1,
    (configureTC_prescaler_iff_seconds device0 TcId.tc4 3 false).2 rfl⟩

/-- C4: with period = 0 the compare write underflows in 16-bit unsigned
arithmetic to 0xFFFF, so configureTC with period 0 produces exactly the
same device state as with a 65536-tick period, and 0xFFFF is the top
value encoding 65536 - 1. -/
theorem configureTC_period_zero_underflow
    (s : DeviceState) (tc : TcId) (oneShot : Bool) :
    ZeroTC45.configureTC s tc 0 oneShot = ZeroTC45.configureTC s tc 0x10000 oneShot
    ∧ ((ZeroTC45.configureTC s tc 0 oneShot).getTc tc).cc0 = 0xFFFF
    ∧ (0xFFFF : Nat) = 0x10000 - 1 := by
  refine ⟨?_, ?_, by norm_num⟩
  · simp [ZeroTC45.configureTC]
  · rw [getTc_configureTC]

/-- C8: stopTC is idempotent — stopping an already-stopped timer yields
exactly the same device state as the first stop. -/
theorem stopTC_idempotent (s : DeviceState) (tc : TcId) :
    stopTC (stopTC s tc) tc = stopTC s tc := by
  cases tc <;>
    simp [stopTC, DeviceState.getTc, DeviceState.setTc, Function.update_same,
      Function.update_idem, Nat.or_assoc]

/-- Writing the INTFLAG register back ORed with OVF clears the OVF bit
(bit 0), because writing a 1 to an INTFLAG bit clears it. -/
theorem intflagWrite_clears_ovf (old : Nat) :
    (intflagWrite old (old ||| TC_INTFLAG_OVF)).testBit 0 = false := by
  simp only [intflagWrite, TC_INTFLAG_OVF, Nat.testBit_and, Nat.testBit_xor,
    Nat.testBit_or]
  cases hb : old.testBit 0 <;> simp [hb]

/-- A concrete state with both OVF flags raised, callback 7 registered
for TC4 and no callback for TC5. -/
def deviceOvf : DeviceState :=
  { device0 with
      tc4 := { device0.tc4 with intflag := 1 }
      tc4Callback := some 7
      tc5 := { device0.tc5 with intflag := 1 }
      tc5Callback := none }

/-- C2: for each timer's handler, when the hardware OVF flag is set the
registered callback (when non-NULL) is invoked exactly once and then the
interrupt is acknowledged; with no callback registered the trace is just
the acknowledgement; in both cases the OVF flag (bit 0 of INTFLAG) is
clear afterwards. -/
theorem handler_invokes_once_then_clears_ovf (s : DeviceState) :
    ((s.tc4.intflag &&& TC_INTFLAG_OVF) ≠ 0 →
      (∀ c, s.tc4Callback = some c →
          (TC4_Handler s).2 = [HandlerEvent.invoke c, HandlerEvent.ackOvf])
      ∧ (s.tc4Callback = none → (TC4_Handler s).2 = [HandlerEvent.ackOvf])
      ∧ (TC4_Handler s).1.tc4.intflag.testBit 0 = false)
    ∧ ((s.tc5.intflag &&& TC_INTFLAG_OVF) ≠ 0 →
      (∀ c, s.tc5Callback = some c →
          (TC5_Handler s).2 = [HandlerEvent.invoke c, HandlerEvent.ackOvf])
      ∧ (s.tc5Callback = none → (TC5_Handler s).2 = [HandlerEvent.ackOvf])
      ∧ (TC5_Handler s).1.tc5.intflag.testBit 0 = false) := by
  constructor
  · intro h
    refine ⟨fun c hc => ?_, fun hn => ?_, ?_⟩
    · simp [TC4_Handler, h, hc]
    · simp [TC4_Handler, h, hn]
    · simp only [TC4_Handler, if_pos h]
      exact intflagWrite_clears_ovf s.tc4.intflag
  · intro h
    refine ⟨fun c hc => ?_, fun hn => ?_, ?_⟩
    · simp [TC5_Handler, h, hc]
    · simp [TC5_Handler, h, hn]
    · simp only [TC5_Handler, if_pos h]
      exact intflagWrite_clears_ovf s.tc5.intflag

/-- Witness for C2: a state with the TC4 OVF flag raised and callback 7
registered, and the TC5 OVF flag raised with no callback. -/
theorem handler_invokes_once_then_clears_ovf_witness :
    (TC4_Handler deviceOvf).2 = [HandlerEvent.invoke 7, HandlerEvent.ackOvf]
    ∧ (TC4_Handler deviceOvf).1.tc4.intflag.testBit 0 = false
    ∧ (TC5_Handler deviceOvf).2 = [HandlerEvent.ackOvf]
    ∧ (TC5_Handler deviceOvf).1.tc5.intflag.testBit 0 = false := by
  have h := handler_invokes_once_then_clears_ovf deviceOvf
  have h4 := h.1 (by decide)
  have h5 := h.2 (by decide)
  exact ⟨h4.1 7 rfl, h4.2.2, h5.2.1 rfl, h5.2.2⟩

/-- C10: configureTC with oneShot = false never touches CTRLB, so the
one-shot bit set by an earlier one-shot start survives a later start with
oneShot = false (CTRLBSET can only set it). -/
theorem configureTC_oneshot_bit_sticky
    (s : DeviceState) (tc : TcId) (p q : Nat) :
    ((ZeroTC45.configureTC s tc p false).getTc tc).ctrlb = (s.getTc tc).ctrlb
    ∧ ((ZeroTC45.configureTC (ZeroTC45.configureTC s tc q true) tc p
          false).getTc tc).ctrlb.testBit 2 = true := by
  have h4 : Nat.testBit TC_CTRLBSET_ONESHOT 2 = true := by decide
  constructor
  · rw [getTc_configureTC]
    simp
  · rw [getTc_configureTC, getTc_configureTC]
    simp [h4]

/-- C7: for a handle that is neither TC4 nor TC5, configureTC and stopTC
leave both NVIC lines untouched, while every counter/compare/control
register write is still performed through the handle (the addressed
block ends in exactly the configured, resp. stopped, register state). -/
theorem unrecognized_handle_nvic_untouched
    (s : DeviceState) (tc : TcId) (p : Nat) (os : Bool)
    (h4 : tc ≠ TcId.tc4) (h5 : tc ≠ TcId.tc5) :
    (ZeroTC45.configureTC s tc p os).nvicTc4 = s.nvicTc4
    ∧ (ZeroTC45.configureTC s tc p os).nvicTc5 = s.nvicTc5
    ∧ (stopTC s tc).nvicTc4 = s.nvicTc4
    ∧ (stopTC s tc).nvicTc5 = s.nvicTc5
    ∧ (ZeroTC45.configureTC s tc p os).getTc tc =
        { ctrla :=
            (if s.resolution = Resolution.SECONDS then
              TC_CTRLA_MODE_COUNT16 ||| TC_CTRLA_WAVEGEN 1 ||| TC_CTRLA_RUNSTDBY |||
                TC_CTRLA_PRESCALER_DIV1024
            else
              TC_CTRLA_MODE_COUNT16 ||| TC_CTRLA_WAVEGEN 1 ||| TC_CTRLA_RUNSTDBY) |||
            TC_CTRLA_ENABLE
          ctrlb :=
            if os then (s.getTc tc).ctrlb ||| TC_CTRLBSET_ONESHOT
            else (s.getTc tc).ctrlb
          cc0 := (p + 0xFFFF) % 0x10000
          ovfIntEnabled := true
          intflag := (s.getTc tc).intflag }
    ∧ (stopTC s tc).getTc tc =
        { s.getTc tc with
            ctrlb := (s.getTc tc).ctrlb ||| TC_CTRLBSET_CMD_STOP
            ovfIntEnabled := false } := by
  cases tc with
  | tc4 => exact absurd rfl h4
  | tc5 => exact absurd rfl h5
  | other a =>
      refine ⟨?_, ?_, ?_, ?_, getTc_configureTC s (TcId.other a) p os, ?_⟩ <;>
        cases os <;>
          simp [ZeroTC45.configureTC, stopTC, DeviceState.getTc, DeviceState.setTc,
            Function.update_same]

/-- Witness for C7 at the unrecognized handle with address 0. -/
theorem unrecognized_handle_nvic_untouched_witness :
    (ZeroTC45.configureTC device0 (TcId.other 0) 7 true).nvicTc4 = device0.nvicTc4
    ∧ (ZeroTC45.configureTC device0 (TcId.other 0) 7 true).nvicTc5 = device0.nvicTc5
    ∧ (stopTC device0 (TcId.other 0)).nvicTc4 = device0.nvicTc4
    ∧ (stopTC device0 (TcId.other 0)).nvicTc5 = device0.nvicTc5
    ∧ (ZeroTC45.configureTC device0 (TcId.other 0) 7 true).getTc (TcId.other 0) =
        { ctrla :=
            (if device0.resolution = Resolution.SECONDS then
              TC_CTRLA_MODE_COUNT16 ||| TC_CTRLA_WAVEGEN 1 ||| TC_CTRLA_RUNSTDBY |||
                TC_CTRLA_PRESCALER_DIV1024
            else
              TC_CTRLA_MODE_COUNT16 ||| TC_CTRLA_WAVEGEN 1 ||| TC_CTRLA_RUNSTDBY) |||
            TC_CTRLA_ENABLE
          ctrlb :=
            if true then (device0.getTc (TcId.other 0)).ctrlb ||| TC_CTRLBSET_ONESHOT
            else (device0.getTc (TcId.other 0)).ctrlb
          cc0 := (7 + 0xFFFF) % 0x10000
          ovfIntEnabled := true
          intflag := (device0.getTc (TcId.other 0)).intflag }
    ∧ (stopTC device0 (TcId.other 0)).getTc (TcId.other 0) =
        { device0.getTc (TcId.other 0) with
            ctrlb := (device0.getTc (TcId.other 0)).ctrlb ||| TC_CTRLBSET_CMD_STOP
            ovfIntEnabled := false } :=
  unrecognized_handle_nvic_untouched device0 (TcId.other 0) 7 true
    (by decide) (by decide)

/-- configureTC never changes the resolution member. -/
theorem resolution_configureTC (s : DeviceState) (tc : TcId) (p : Nat) (os : Bool) :
    (ZeroTC45.configureTC s tc p os).resolution = s.resolution := by
  cases tc <;>
    simp [ZeroTC45.configureTC, DeviceState.setTc]

/-- stopTC never changes the resolution member. -/
theorem resolution_stopTC (s : DeviceState) (tc : TcId) :
    (stopTC s tc).resolution = s.resolution := by
  cases tc <;> simp [stopTC, DeviceState.setTc]

/-- configureGclk never changes the resolution member. -/
theorem resolution_configureGclk (s : DeviceState) (g : Nat) :
    (ZeroTC45.configureGclk s g).1.resolution = s.resolution := by
  rcases h : s.resolution <;> simp [ZeroTC45.configureGclk, h]

/-- C9: begin without an explicit resolution sets the process-wide
resolution member to SECONDS; the explicit overload stores its argument;
no other operation of the library (callback setters, starts, stops,
interrupt handlers) modifies the resolution; both starts feed the same
shared resolution into configureTC, and after the default begin both
timers are programmed with the divide-by-1024 (seconds) prescaler. -/
theorem begin_sets_shared_seconds_resolution
    (s : DeviceState) (g g2 : Nat) (res : Resolution) (c : Option Nat)
    (p : Nat) (os : Bool) :
    (ZeroTC45.begin s g).resolution = Resolution.SECONDS
    ∧ (ZeroTC45.beginWithResolution s res g2).resolution = res
    ∧ (ZeroTC45.setTc4Callback s c).resolution = s.resolution
    ∧ (ZeroTC45.setTc5Callback s c).resolution = s.resolution
    ∧ (ZeroTC45.startTc4 s p os).resolution = s.resolution
    ∧ (ZeroTC45.startTc5 s p os).resolution = s.resolution
    ∧ (ZeroTC45.stopTc4 s).resolution = s.resolution
    ∧ (ZeroTC45.stopTc5 s).resolution = s.resolution
    ∧ (TC4_Handler s).1.resolution = s.resolution
    ∧ (TC5_Handler s).1.resolution = s.resolution
    ∧ ZeroTC45.startTc4 s p os = ZeroTC45.configureTC s TcId.tc4 p os
    ∧ ZeroTC45.startTc5 s p os = ZeroTC45.configureTC s TcId.tc5 p os
    ∧ (((ZeroTC45.startTc4 (ZeroTC45.begin s g) p os).getTc TcId.tc4).ctrla &&&
        TC_CTRLA_PRESCALER_DIV1024) = TC_CTRLA_PRESCALER_DIV1024
    ∧ (((ZeroTC45.startTc5 (ZeroTC45.begin s g) p os).getTc TcId.tc5).ctrla &&&
        TC_CTRLA_PRESCALER_DIV1024) = TC_CTRLA_PRESCALER_DIV1024 := by
  have hbegin : (ZeroTC45.begin s g).resolution = Resolution.SECONDS := by
    simp [ZeroTC45.begin, resolution_configureGclk]
  refine ⟨hbegin, ?_, rfl, rfl,
    resolution_configureTC s TcId.tc4 p os,
    resolution_configureTC s TcId.tc5 p os,
    resolution_stopTC s TcId.tc4, resolution_stopTC s TcId.tc5,
    ?_, ?_, rfl, rfl, ?_, ?_⟩
  · simp [ZeroTC45.beginWithResolution, resolution_configureGclk]
  · unfold TC4_Handler
    split <;> rfl
  · unfold TC5_Handler
    split <;> rfl
  · rw [ZeroTC45.startTc4, getTc_configureTC, hbegin]
    simp
    decide
  · rw [ZeroTC45.startTc5, getTc_configureTC, hbegin]
    simp
    decide

/-- Is the event a write to a GCLK register? -/
def isGclkWrite : GclkEvent → Bool
  | GclkEvent.writeGendiv => true
  | GclkEvent.writeGenctrl => true
  | GclkEvent.writeClkctrl => true
  | _ => false

/-- Every GCLK register write in the trace has a sync-busy wait
immediately before it and immediately after it.  `prev` is the event
preceding the current head of the list. -/
def guardedFrom (prev : Option GclkEvent) : List GclkEvent → Bool
  | [] => true
  | e :: rest =>
      (if isGclkWrite e then
        (prev == some GclkEvent.syncWait) && (rest.head? == some GclkEvent.syncWait)
      else true)
      && guardedFrom (some e) rest

/-- C5's property as stated: every GCLK register write both preceded and
followed by a sync-busy wait. -/
def gclkWritesGuarded (tr : List GclkEvent) : Bool := guardedFrom none tr

/-- The amended guarding property: GENCTRL and CLKCTRL writes are
preceded and followed by a sync-busy wait, while the GENDIV write (which
the hardware does not write-synchronize) is only followed by one. -/
def guardedFromAmended (prev : Option GclkEvent) : List GclkEvent → Bool
  | [] => true
  | e :: rest =>
      (if e == GclkEvent.writeGendiv then
        rest.head? == some GclkEvent.syncWait
      else if isGclkWrite e then
        (prev == some GclkEvent.syncWait) && (rest.head? == some GclkEvent.syncWait)
      else true)
      && guardedFromAmended (some e) rest

def gclkWritesGuardedAmended (tr : List GclkEvent) : Bool :=
  guardedFromAmended none tr

/-- Counterexample to C5 as stated: in configureGclk the GENDIV write is
the first GCLK register access of the routine — nothing precedes it, in
particular no sync-busy wait (the code itself notes "GENDIV is not write
sync"), so the guarding property fails on the concrete trace. -/
theorem configureGclk_gendiv_unguarded :
    gclkWritesGuarded (ZeroTC45.configureGclk device0 4).2 = false := by decide

/-- C5 amended: every GENCTRL and CLKCTRL write in configureGclk is both
preceded and followed by a busy-wait on the GCLK sync-busy bit, and the
GENDIV write is followed (though not preceded) by one — for either
resolution and any generator id. -/
theorem configureGclk_writes_guarded
    (s : DeviceState) (g : Nat) :
    gclkWritesGuardedAmended (ZeroTC45.configureGclk s g).2 = true := by
  rcases h : s.resolution <;>
    simp [ZeroTC45.configureGclk, h, gclkWritesGuardedAmended, guardedFromAmended,
      isGclkWrite] <;>
    decide

/-- The GENCTRL value configureGclk programs, in closed form. -/
theorem genctrl_configureGclk (s : DeviceState) (g : Nat) :
    (ZeroTC45.configureGclk s g).1.genctrl =
      (GCLK_GENCTRL_GENEN ||| GCLK_GENCTRL_ID g ||| GCLK_GENCTRL_DIVSEL) |||
        (if s.resolution = Resolution.SECONDS then GCLK_GENCTRL_SRC_XOSC32K
         else GCLK_GENCTRL_SRC_OSCULP32K) := by
  rcases h : s.resolution <;> simp [ZeroTC45.configureGclk, h]

/-- C6: configureGclk programs and enables the XOSC32K crystal exactly
when the resolution is SECONDS (with a SECONDS resolution the oscillator
register is written with the ENABLE bit set; with MILLISECONDS it is left
untouched), and selects the generator source XOSC32K for SECONDS and
OSCULP32K for MILLISECONDS. -/
theorem configureGclk_oscillator_selection (s : DeviceState) (g : Nat) :
    ((ZeroTC45.configureGclk { s with resolution := Resolution.SECONDS } g).1.xosc32k =
        (SYSCTRL_XOSC32K_ONDEMAND ||| SYSCTRL_XOSC32K_RUNSTDBY |||
          SYSCTRL_XOSC32K_EN32K ||| SYSCTRL_XOSC32K_XTALEN |||
          SYSCTRL_XOSC32K_STARTUP 6 ||| SYSCTRL_XOSC32K_ENABLE))
    ∧ ((ZeroTC45.configureGclk { s with resolution := Resolution.SECONDS } g).1.xosc32k &&&
        SYSCTRL_XOSC32K_ENABLE) = SYSCTRL_XOSC32K_ENABLE
    ∧ (ZeroTC45.configureGclk { s with resolution := Resolution.MILLISECONDS } g).1.xosc32k
        = s.xosc32k
    ∧ ((ZeroTC45.configureGclk { s with resolution := Resolution.SECONDS } g).1.genctrl &&&
        GCLK_GENCTRL_SRC_Msk) = GCLK_GENCTRL_SRC_XOSC32K
    ∧ ((ZeroTC45.configureGclk { s with resolution := Resolution.MILLISECONDS } g).1.genctrl &&&
        GCLK_GENCTRL_SRC_Msk) = GCLK_GENCTRL_SRC_OSCULP32K := by
  have h15 : ((0xF : Nat) &&& (0x1F <<< 8)) = 0 := by decide
  have hid : ∀ x : Nat, GCLK_GENCTRL_ID x &&& GCLK_GENCTRL_SRC_Msk = 0 := by
    intro x
    simp only [GCLK_GENCTRL_ID, GCLK_GENCTRL_SRC_Msk]
    rw [Nat.and_assoc, h15, Nat.and_zero]
  have hgenen : GCLK_GENCTRL_GENEN &&& GCLK_GENCTRL_SRC_Msk = 0 := by decide
  have hdivsel : GCLK_GENCTRL_DIVSEL &&& GCLK_GENCTRL_SRC_Msk = 0 := by decide
  have hx : GCLK_GENCTRL_SRC_XOSC32K &&& GCLK_GENCTRL_SRC_Msk =
      GCLK_GENCTRL_SRC_XOSC32K := by decide
  have ho : GCLK_GENCTRL_SRC_OSCULP32K &&& GCLK_GENCTRL_SRC_Msk =
      GCLK_GENCTRL_SRC_OSCULP32K := by decide
  refine ⟨?_, ?_, ?_, ?_, ?_⟩
  · simp [ZeroTC45.configureGclk]
  · simp [ZeroTC45.configureGclk]
    decide
  · simp [ZeroTC45.configureGclk]
  · rw [genctrl_configureGclk]
    simp only [DeviceState.resolution]
    rw [if_pos trivial, Nat.and_distrib_right, Nat.and_distrib_right,
      Nat.and_distrib_right, hid, hgenen, hdivsel, hx]
    simp
  · rw [genctrl_configureGclk]
    simp only [DeviceState.resolution]
    rw [if_neg (by decide), Nat.and_distrib_right, Nat.and_distrib_right,
      Nat.and_distrib_right, hid, hgenen, hdivsel, ho]
    simp
